import Mathlib

/-!
Verification of the DocSpot appointment-booking backend.

This file gives a shallow embedding of the backend route handlers
(`backend/routes/auth.js`, `backend/routes/doctor.js`,
`backend/routes/customer.js`, `backend/routes/admin.js`) over an explicit
store of users, doctor profiles and appointments, followed by theorems
about the behaviour of the handlers.  Each handler is modelled as a pure
function from the store and the request data to the updated store and an
HTTP-level response (status code plus message).  Password hashing and
comparison are abstracted as function parameters, as the handlers only
call out to them.
-/

namespace DocSpot

/-- User roles, as in the `role` enum of `backend/models/User.js`. -/
inductive Role where
  | customer
  | doctor
  | admin
deriving DecidableEq, Repr

/-- A user record, from `backend/models/User.js`.  The stored `password`
field holds the hash, as the register handler saves the bcrypt hash. -/
structure User where
  id : Nat
  username : String
  email : String
  password : String
  role : Role
  isApproved : Bool
deriving DecidableEq, Repr

/-- A doctor profile record, from `backend/models/Doctor.js`.  `user` is
the id of the owning user. -/
structure DoctorProfile where
  user : Nat
  specialty : String
  clinicName : Option String
  address : Option String
  phone : Option String
  isApproved : Bool
deriving DecidableEq, Repr

/-- Appointment status values, from the `status` enum of the
Appointment model as used by the route handlers. -/
inductive ApptStatus where
  | pending
  | scheduled
  | completed
  | cancelled
deriving DecidableEq, Repr

/-- Payment status values: `pending`, `paid`, `failed`. -/
inductive PayStatus where
  | pending
  | paid
  | failed
deriving DecidableEq, Repr

/-- An appointment record, from the Appointment model: customer and
doctor are user ids. -/
structure Appointment where
  id : Nat
  customer : Nat
  doctor : Nat
  date : String
  time : String
  documents : List String
  notes : Option String
  isEmergency : Bool
  status : ApptStatus
  paymentStatus : PayStatus
  createdAt : Nat
deriving DecidableEq, Repr

/-- The whole database: the three document collections. -/
structure Store where
  users : List User
  profiles : List DoctorProfile
  appointments : List Appointment
deriving DecidableEq, Repr

/-- A handler response: `ok` with a message, or an error with an HTTP
status code and a message (the `{msg}` JSON body). -/
inductive Response where
  | ok (msg : String)
  | err (code : Nat) (msg : String)
deriving DecidableEq, Repr

/-- `User.findById`: first user whose id matches. -/
def findUser (s : Store) (uid : Nat) : Option User :=
  s.users.find? (fun u => u.id == uid)

/-- `DoctorProfile.findOne({user})`: first profile owned by `uid`. -/
def findProfileByUser (s : Store) (uid : Nat) : Option DoctorProfile :=
  s.profiles.find? (fun p => p.user == uid)

/-- `Appointment.findById`: first appointment whose id matches. -/
def findApptById (s : Store) (aid : Nat) : Option Appointment :=
  s.appointments.find? (fun a => a.id == aid)

/-- `User.findOne({email})`. -/
def findUserByEmail (s : Store) (email : String) : Option User :=
  s.users.find? (fun u => u.email == email)

/-- Mongoose `appointment.save()`: replace the document with this id. -/
def saveAppt (l : List Appointment) (a : Appointment) : List Appointment :=
  l.map (fun b => if b.id == a.id then a else b)

/-- Mongoose `user.save()`: replace the document with this id. -/
def saveUser (l : List User) (u : User) : List User :=
  l.map (fun v => if v.id == u.id then u else v)

/-- Mongoose `doctorProfile.save()`: replace the profile owned by this
user id (the `user` field is unique in the schema). -/
def saveProfile (l : List DoctorProfile) (p : DoctorProfile) : List DoctorProfile :=
  l.map (fun q => if q.user == p.user then p else q)

/-- The fixed organizational email marker from `routes/auth.js`:
`email.endsWith(marker)` with the literal `@chetan.doctor`. -/
def doctorEmailMarker : String := "@chetan.doctor"

/-- JavaScript `s.endsWith(suffix)`: `suffix` is a suffix of the
character sequence of `s`. -/
def strEndsWith (s suffix : String) : Bool :=
  suffix.data.isSuffixOf s.data

/-- `POST /api/auth/register` from `backend/routes/auth.js`.
`hash` abstracts `bcrypt.hash` (with its generated salt applied);
`freshId` is the id the database assigns to the new user document. -/
def register (s : Store) (username email password : String)
    (hash : String → String) (freshId : Nat) : Store × Response :=
  if s.users.any (fun u => u.email == email || u.username == username) then
    (s, Response.err 400 "User already exists")
  else
    let role := if strEndsWith email doctorEmailMarker then Role.doctor else Role.customer
    let user : User :=
      { id := freshId
        username := username
        email := email
        password := hash password
        role := role
        isApproved := role == Role.customer || role == Role.admin }
    let s1 : Store := { s with users := s.users ++ [user] }
    if role == Role.doctor then
      let doctorProfile : DoctorProfile :=
        { user := freshId
          specialty := "Not specified"
          clinicName := none
          address := none
          phone := none
          isApproved := false }
      ({ s1 with profiles := s1.profiles ++ [doctorProfile] },
       Response.ok "Registration successful!")
    else
      (s1, Response.ok "Registration successful!")

/-- `POST /api/auth/login` from `backend/routes/auth.js`.  `compare`
abstracts `bcrypt.compare password user.password`.  Login performs no
store write, so only the response is returned. -/
def login (s : Store) (email password : String)
    (compare : String → String → Bool) : Response :=
  match findUserByEmail s email with
  | none => Response.err 400 "Invalid Credentials"
  | some user =>
    if compare password user.password then
      Response.ok "Login successful!"
    else
      Response.err 400 "Invalid Credentials"

/-- `PUT /api/admin/doctors/:user_id/approve` from
`backend/routes/admin.js` (after the `auth` and `isAdmin` gates): find
the user, require role doctor, find the profile, set `isApproved` on
both records. -/
def approveDoctor (s : Store) (uid : Nat) : Store × Response :=
  match findUser s uid with
  | none => (s, Response.err 404 "Doctor not found or not a doctor role")
  | some user =>
    if user.role ≠ Role.doctor then
      (s, Response.err 404 "Doctor not found or not a doctor role")
    else
      match findProfileByUser s uid with
      | none => (s, Response.err 404 "Doctor profile not found")
      | some doctorProfile =>
        ({ s with
            users := saveUser s.users { user with isApproved := true }
            profiles := saveProfile s.profiles { doctorProfile with isApproved := true } },
         Response.ok "Doctor approved successfully")

/-- `DELETE /api/admin/users/:user_id` from `backend/routes/admin.js`
(after the `auth` and `isAdmin` gates); `callerId` is the admin making
the request (`req.user.id`). -/
def deleteUser (s : Store) (callerId tid : Nat) : Store × Response :=
  match findUser s tid with
  | none => (s, Response.err 404 "User not found")
  | some userToDelete =>
    if userToDelete.role = Role.admin then
      (s, Response.err 403 "Cannot delete an admin user.")
    else if userToDelete.id = callerId then
      (s, Response.err 403 "You cannot delete your own account.")
    else
      let s1 : Store :=
        if userToDelete.role = Role.doctor then
          { s with
              profiles := s.profiles.filter (fun p => !(p.user == userToDelete.id))
              appointments := s.appointments.filter (fun a => !(a.doctor == userToDelete.id)) }
        else if userToDelete.role = Role.customer then
          { s with
              appointments := s.appointments.filter (fun a => !(a.customer == userToDelete.id)) }
        else s
      ({ s1 with users := s1.users.filter (fun u => !(u.id == userToDelete.id)) },
       Response.ok "User and associated data removed")

/-- `POST /api/customer/appointments` from `backend/routes/customer.js`
(after the `auth` and `isCustomer` gates): book an appointment.
`callerId` is `req.user.id`; `isEmergency` is an optional request field
(`isEmergency || false`); `freshId` and `createdAt` are assigned by the
database on save. -/
def bookAppointment (s : Store) (callerId doctorId : Nat)
    (date time : String) (documents : List String) (notes : Option String)
    (isEmergency : Option Bool) (freshId createdAt : Nat) : Store × Response :=
  match findProfileByUser s doctorId with
  | none => (s, Response.err 400 "Doctor not found or not yet approved.")
  | some doctorProfile =>
    if !doctorProfile.isApproved then
      (s, Response.err 400 "Doctor not found or not yet approved.")
    else
      let newAppointment : Appointment :=
        { id := freshId
          customer := callerId
          doctor := doctorId
          date := date
          time := time
          documents := documents
          notes := notes
          isEmergency := isEmergency.getD false
          status := ApptStatus.pending
          paymentStatus := PayStatus.pending
          createdAt := createdAt }
      ({ s with appointments := s.appointments ++ [newAppointment] },
       Response.ok "Appointment requested successfully! Proceed to My Appointments to pay.")

/-- `PUT /api/customer/appointments/:id/cancel` from
`backend/routes/customer.js` (after the `auth` and `isCustomer` gates). -/
def cancelAppointment (s : Store) (callerId aid : Nat) : Store × Response :=
  match findApptById s aid with
  | none => (s, Response.err 404 "Appointment not found")
  | some appointment =>
    if appointment.customer ≠ callerId then
      (s, Response.err 401 "Not authorized to cancel this appointment")
    else if appointment.status = ApptStatus.completed then
      (s, Response.err 400 "Cannot cancel a completed appointment.")
    else if appointment.status = ApptStatus.cancelled then
      (s, Response.err 400 "Appointment is already cancelled.")
    else
      ({ s with appointments := saveAppt s.appointments { appointment with status := ApptStatus.cancelled } },
       Response.ok "Appointment cancelled successfully")

/-- The stubbed payment result in the pay handler:
`const paymentSuccessful = true`. -/
def paymentSuccessful : Bool := true

/-- `POST /api/customer/appointments/:id/pay` from
`backend/routes/customer.js` (after the `auth` and `isCustomer` gates).
The failure branch writing `paymentStatus = failed` is kept as the
source writes it, guarded by the constant `paymentSuccessful`. -/
def payAppointment (s : Store) (callerId aid : Nat) : Store × Response :=
  match findApptById s aid with
  | none => (s, Response.err 404 "Appointment not found")
  | some appointment =>
    if appointment.customer ≠ callerId then
      (s, Response.err 401 "Not authorized to pay for this appointment")
    else if appointment.status ≠ ApptStatus.pending ∧ appointment.status ≠ ApptStatus.scheduled then
      (s, Response.err 400 "Cannot pay for an appointment with this status")
    else if appointment.paymentStatus = PayStatus.paid then
      (s, Response.err 400 "Payment has already been made for this appointment.")
    else
      if paymentSuccessful then
        let a1 :=
          { appointment with
              paymentStatus := PayStatus.paid
              status := if appointment.status = ApptStatus.pending then ApptStatus.scheduled
                        else appointment.status }
        ({ s with appointments := saveAppt s.appointments a1 },
         Response.ok "Payment successful!")
      else
        ({ s with appointments := saveAppt s.appointments { appointment with paymentStatus := PayStatus.failed } },
         Response.err 400 "Payment failed. Please try again.")

/-- JavaScript truthiness of an optional string request field:
absent and the empty string are falsy. -/
def truthyStr : Option String → Bool
  | none => false
  | some v => !v.isEmpty

/-- `if (field) target = field` for an optional string request field. -/
def applyIfTruthy (field : Option String) (old : String) : String :=
  match field with
  | none => old
  | some v => if v.isEmpty then old else v

/-- `PUT /api/doctor/appointments/:id/status` from
`backend/routes/doctor.js` (after the `auth` and `isDoctor` gates):
update status, and optionally date/time, guarded field by field by
JavaScript truthiness of the request body fields. -/
def updateApptStatus (s : Store) (callerId aid : Nat)
    (status : Option ApptStatus) (date time : Option String) : Store × Response :=
  match findApptById s aid with
  | none => (s, Response.err 404 "Appointment not found")
  | some appointment =>
    if appointment.doctor ≠ callerId then
      (s, Response.err 401 "Not authorized to update this appointment")
    else
      let a1 := { appointment with status := status.getD appointment.status }
      let a2 := { a1 with date := applyIfTruthy date a1.date }
      let a3 := { a2 with time := applyIfTruthy time a2.time }
      ({ s with appointments := saveAppt s.appointments a3 },
       Response.ok "Appointment updated successfully")

/-- One invocation of any of the public store-mutating operations, with
all its request data.  Used to state whole-system invariants. -/
inductive Op where
  | register (username email password : String) (freshId : Nat)
  | book (callerId doctorId : Nat) (date time : String) (documents : List String)
         (notes : Option String) (isEmergency : Option Bool) (freshId createdAt : Nat)
  | pay (callerId aid : Nat)
  | cancel (callerId aid : Nat)
  | statusUpdate (callerId aid : Nat) (status : Option ApptStatus) (date time : Option String)
  | approve (uid : Nat)
  | delete (callerId tid : Nat)

/-- Run one operation against the store, keeping the resulting store. -/
def applyOp (s : Store) : Op → Store
  | Op.register un em pw fid => (register s un em pw id fid).1
  | Op.book cid did d t docs notes em fid cat =>
      (bookAppointment s cid did d t docs notes em fid cat).1
  | Op.pay cid aid => (payAppointment s cid aid).1
  | Op.cancel cid aid => (cancelAppointment s cid aid).1
  | Op.statusUpdate cid aid st d t => (updateApptStatus s cid aid st d t).1
  | Op.approve uid => (approveDoctor s uid).1
  | Op.delete cid tid => (deleteUser s cid tid).1

/-- Run a sequence of operations from left to right. -/
def runOps (s : Store) (ops : List Op) : Store :=
  ops.foldl applyOp s

/-- No appointment in the store has `paymentStatus = failed`. -/
def NoFailedPayment (s : Store) : Prop :=
  ∀ a ∈ s.appointments, a.paymentStatus ≠ PayStatus.failed

/-! ### Helper lemmas -/

/-- Membership after a mongoose-style save: every element of the saved
list is either the saved document or an element of the old list. -/
theorem mem_saveAppt {l : List Appointment} {a a' : Appointment}
    (h : a' ∈ saveAppt l a) : a' = a ∨ a' ∈ l := by
  simp only [saveAppt, List.mem_map] at h
  obtain ⟨b, hb, hba⟩ := h
  by_cases hid : (b.id == a.id) = true
  · left
    rw [← hba, if_pos hid]
  · right
    rw [← hba, if_neg hid]
    exact hb

/-- After saving a document whose id already occurs in the list,
`findById` on that id returns the saved document. -/
theorem find?_saveAppt {l : List Appointment} {a' : Appointment}
    (h : ∃ b ∈ l, b.id = a'.id) :
    (saveAppt l a').find? (fun b => b.id == a'.id) = some a' := by
  induction l with
  | nil => simp at h
  | cons x xs ih =>
    simp only [saveAppt, List.map_cons]
    by_cases hx : (x.id == a'.id) = true
    · rw [if_pos hx]
      simp [List.find?]
    · rw [if_neg hx]
      obtain ⟨b, hb, hbid⟩ := h
      rcases List.mem_cons.mp hb with hbx | hbxs
      · rw [hbx] at hbid
        exact absurd (beq_iff_eq.mpr hbid) hx
      · have hres := ih ⟨b, hbxs, hbid⟩
        have hx' : (x.id == a'.id) = false := by
          exact Bool.not_eq_true _ |>.mp hx
        simp only [saveAppt] at hres
        rw [List.find?_cons]
        simp only [hx']
        exact hres

/-- The element returned by `find?` is a member of the list. -/
theorem mem_of_findApptById {s : Store} {aid : Nat} {a : Appointment}
    (h : findApptById s aid = some a) : a ∈ s.appointments :=
  List.mem_of_find?_eq_some h

/-- The element returned by `findApptById s aid` has id `aid`. -/
theorem id_of_findApptById {s : Store} {aid : Nat} {a : Appointment}
    (h : findApptById s aid = some a) : a.id = aid := by
  have := List.find?_some h
  simpa using this

/-! ### Claims -/

/-- C1: a registration that passes the duplicate check creates a user
whose role is doctor exactly when the email ends with the fixed marker
`@chetan.doctor`; a doctor is created with `isApproved = false`
together with exactly one profile (`isApproved = false`, specialty
`Not specified`), a customer with `isApproved = true` and no profile. -/
theorem register_role_assignment (s : Store) (un em pw : String)
    (hash : String → String) (fid : Nat)
    (hfree : s.users.any (fun u => u.email == em || u.username == un) = false) :
    (strEndsWith em doctorEmailMarker = true →
       (register s un em pw hash fid).1.users
         = s.users ++ [{ id := fid, username := un, email := em, password := hash pw,
                         role := Role.doctor, isApproved := false }] ∧
       (register s un em pw hash fid).1.profiles
         = s.profiles ++ [{ user := fid, specialty := "Not specified", clinicName := none,
                            address := none, phone := none, isApproved := false }]) ∧
    (strEndsWith em doctorEmailMarker = false →
       (register s un em pw hash fid).1.users
         = s.users ++ [{ id := fid, username := un, email := em, password := hash pw,
                         role := Role.customer, isApproved := true }] ∧
       (register s un em pw hash fid).1.profiles = s.profiles) := by
  constructor
  · intro h
    simp [register, hfree, h]
  · intro h
    simp [register, hfree, h]

/-- Witness for C1 at concrete inputs: one doctor-marker email and one
plain email against the empty store. -/
theorem register_role_assignment_witness :
    (Store.mk [] [] []).users.any
        (fun u => u.email == "d@chetan.doctor" || u.username == "d") = false ∧
    (register (Store.mk [] [] []) "d" "d@chetan.doctor" "p" (fun x => x) 0).1.profiles
      = [{ user := 0, specialty := "Not specified", clinicName := none,
           address := none, phone := none, isApproved := false }] ∧
    (register (Store.mk [] [] []) "c" "c@mail.com" "p" (fun x => x) 0).1.users
      = [{ id := 0, username := "c", email := "c@mail.com", password := "p",
           role := Role.customer, isApproved := true }] := by
  refine ⟨by decide, ?_, ?_⟩
  · have h := register_role_assignment (Store.mk [] [] []) "d" "d@chetan.doctor" "p"
      (fun x => x) 0 (by decide)
    simpa using (h.1 (by decide)).2
  · have h := register_role_assignment (Store.mk [] [] []) "c" "c@mail.com" "p"
      (fun x => x) 0 (by decide)
    simpa using (h.2 (by decide)).1

/-- C7: a login whose email matches no user and a login whose email
matches a user but whose password comparison fails produce identical
responses: the same status code and the same generic message
`Invalid Credentials`, so the two failure causes are observationally
indistinguishable. -/
theorem login_enumeration_resistance (s : Store) (e1 p1 e2 p2 : String)
    (compare : String → String → Bool) (u : User)
    (h1 : findUserByEmail s e1 = none)
    (h2 : findUserByEmail s e2 = some u)
    (h3 : compare p2 u.password = false) :
    login s e1 p1 compare = Response.err 400 "Invalid Credentials" ∧
    login s e2 p2 compare = Response.err 400 "Invalid Credentials" := by
  constructor
  · simp [login, h1]
  · simp [login, h2, h3]

/-- Witness for C7: a store with one user; a lookup miss and a password
mismatch give the same response. -/
theorem login_enumeration_resistance_witness :
    (findUserByEmail (Store.mk [User.mk 1 "u" "u@mail.com" "hash" Role.customer true] [] [])
        "v@mail.com" = none) ∧
    (findUserByEmail (Store.mk [User.mk 1 "u" "u@mail.com" "hash" Role.customer true] [] [])
        "u@mail.com" = some (User.mk 1 "u" "u@mail.com" "hash" Role.customer true)) ∧
    login (Store.mk [User.mk 1 "u" "u@mail.com" "hash" Role.customer true] [] [])
        "v@mail.com" "pw" (fun _ _ => false) = Response.err 400 "Invalid Credentials" ∧
    login (Store.mk [User.mk 1 "u" "u@mail.com" "hash" Role.customer true] [] [])
        "u@mail.com" "pw" (fun _ _ => false) = Response.err 400 "Invalid Credentials" := by
  refine ⟨rfl, rfl, ?_⟩
  exact login_enumeration_resistance _ "v@mail.com" "pw" "u@mail.com" "pw"
    (fun _ _ => false) (User.mk 1 "u" "u@mail.com" "hash" Role.customer true)
    rfl rfl rfl

/-- C8: a doctor-status-update on an existing appointment whose doctor
field differs from the caller fails with 401 and leaves the whole store
(in particular every field of the appointment) unchanged. -/
theorem statusUpdate_nonowner_unauthorized (s : Store) (cid aid : Nat)
    (st : Option ApptStatus) (d t : Option String) (a : Appointment)
    (hfind : findApptById s aid = some a)
    (hown : a.doctor ≠ cid) :
    updateApptStatus s cid aid st d t
      = (s, Response.err 401 "Not authorized to update this appointment") := by
  simp [updateApptStatus, hfind, hown]

/-- Witness for C8: doctor 5 tries to update an appointment owned by
doctor 4. -/
theorem statusUpdate_nonowner_unauthorized_witness :
    (findApptById
        (Store.mk [] [] [Appointment.mk 9 2 4 "2025-06-24" "10:00" [] none false
          ApptStatus.pending PayStatus.pending 0]) 9
      = some (Appointment.mk 9 2 4 "2025-06-24" "10:00" [] none false
          ApptStatus.pending PayStatus.pending 0)) ∧
    updateApptStatus
        (Store.mk [] [] [Appointment.mk 9 2 4 "2025-06-24" "10:00" [] none false
          ApptStatus.pending PayStatus.pending 0]) 5 9
        (some ApptStatus.completed) none none
      = (Store.mk [] [] [Appointment.mk 9 2 4 "2025-06-24" "10:00" [] none false
          ApptStatus.pending PayStatus.pending 0],
         Response.err 401 "Not authorized to update this appointment") := by
  refine ⟨rfl, ?_⟩
  exact statusUpdate_nonowner_unauthorized _ 5 9 (some ApptStatus.completed) none none
    (Appointment.mk 9 2 4 "2025-06-24" "10:00" [] none false
      ApptStatus.pending PayStatus.pending 0) rfl (by decide)

/-- C2: a pay request by the owning customer on an existing appointment
fails with 400 and leaves the store unchanged when the status lies
outside `{pending, scheduled}` or the payment is already `paid`;
otherwise it succeeds, sets `paymentStatus = paid` and promotes
`pending` to `scheduled` (leaving `scheduled` as is). -/
theorem pay_transition (s : Store) (cid aid : Nat) (a : Appointment)
    (hfind : findApptById s aid = some a)
    (hown : a.customer = cid) :
    ((¬(a.status = ApptStatus.pending ∨ a.status = ApptStatus.scheduled) ∨
        a.paymentStatus = PayStatus.paid) →
       (payAppointment s cid aid).1 = s ∧
       ∃ m, (payAppointment s cid aid).2 = Response.err 400 m) ∧
    ((a.status = ApptStatus.pending ∨ a.status = ApptStatus.scheduled) →
     a.paymentStatus ≠ PayStatus.paid →
       (payAppointment s cid aid).2 = Response.ok "Payment successful!" ∧
       (payAppointment s cid aid).1.users = s.users ∧
       (payAppointment s cid aid).1.profiles = s.profiles ∧
       (payAppointment s cid aid).1.appointments
         = saveAppt s.appointments
             { a with
                 paymentStatus := PayStatus.paid
                 status := if a.status = ApptStatus.pending then ApptStatus.scheduled
                           else a.status }) := by
  constructor
  · intro hbad
    rcases hbad with hst | hpaid
    · have hst' : a.status ≠ ApptStatus.pending ∧ a.status ≠ ApptStatus.scheduled := by
        exact ⟨fun h => hst (Or.inl h), fun h => hst (Or.inr h)⟩
      refine ⟨?_, "Cannot pay for an appointment with this status", ?_⟩ <;>
        simp [payAppointment, hfind, hown, hst']
    · by_cases hst : a.status ≠ ApptStatus.pending ∧ a.status ≠ ApptStatus.scheduled
      · refine ⟨?_, "Cannot pay for an appointment with this status", ?_⟩ <;>
          simp [payAppointment, hfind, hown, hst]
      · refine ⟨?_, "Payment has already been made for this appointment.", ?_⟩ <;>
          simp [payAppointment, hfind, hown, hst, hpaid]
  · intro hst hpay
    have hst' : ¬(a.status ≠ ApptStatus.pending ∧ a.status ≠ ApptStatus.scheduled) := by
      rcases hst with h | h <;> simp [h]
    refine ⟨?_, ?_, ?_, ?_⟩ <;>
      simp [payAppointment, hfind, hown, hst', hpay, paymentSuccessful]

/-- Witness for C2: paying a pending/pending appointment owned by
customer 2 promotes it to scheduled/paid. -/
theorem pay_transition_witness :
    (findApptById
        (Store.mk [] [] [Appointment.mk 9 2 4 "2025-06-24" "10:00" [] none false
          ApptStatus.pending PayStatus.pending 0]) 9
      = some (Appointment.mk 9 2 4 "2025-06-24" "10:00" [] none false
          ApptStatus.pending PayStatus.pending 0)) ∧
    (payAppointment
        (Store.mk [] [] [Appointment.mk 9 2 4 "2025-06-24" "10:00" [] none false
          ApptStatus.pending PayStatus.pending 0]) 2 9).1.appointments
      = [Appointment.mk 9 2 4 "2025-06-24" "10:00" [] none false
          ApptStatus.scheduled PayStatus.paid 0] := by
  refine ⟨rfl, ?_⟩
  have h := (pay_transition
    (Store.mk [] [] [Appointment.mk 9 2 4 "2025-06-24" "10:00" [] none false
      ApptStatus.pending PayStatus.pending 0]) 2 9
    (Appointment.mk 9 2 4 "2025-06-24" "10:00" [] none false
      ApptStatus.pending PayStatus.pending 0) rfl rfl).2
    (Or.inl rfl) (by decide)
  have h4 := h.2.2.2
  simpa [saveAppt] using h4

/-- C5: a cancel request by the owning customer on an existing
appointment fails with 400 and changes nothing when the status is
`completed` or `cancelled`; otherwise it sets the status to `cancelled`
whatever the payment state, after which a second cancel fails with 400. -/
theorem cancel_transition (s : Store) (cid aid : Nat) (a : Appointment)
    (hfind : findApptById s aid = some a)
    (hown : a.customer = cid) :
    ((a.status = ApptStatus.completed ∨ a.status = ApptStatus.cancelled) →
       (cancelAppointment s cid aid).1 = s ∧
       ∃ m, (cancelAppointment s cid aid).2 = Response.err 400 m) ∧
    (a.status ≠ ApptStatus.completed → a.status ≠ ApptStatus.cancelled →
       (cancelAppointment s cid aid).2 = Response.ok "Appointment cancelled successfully" ∧
       (cancelAppointment s cid aid).1.users = s.users ∧
       (cancelAppointment s cid aid).1.profiles = s.profiles ∧
       (cancelAppointment s cid aid).1.appointments
         = saveAppt s.appointments { a with status := ApptStatus.cancelled } ∧
       cancelAppointment (cancelAppointment s cid aid).1 cid aid
         = ((cancelAppointment s cid aid).1,
            Response.err 400 "Appointment is already cancelled.")) := by
  constructor
  · intro hbad
    rcases hbad with h | h
    · refine ⟨?_, "Cannot cancel a completed appointment.", ?_⟩ <;>
        simp [cancelAppointment, hfind, hown, h]
    · refine ⟨?_, "Appointment is already cancelled.", ?_⟩ <;>
        simp [cancelAppointment, hfind, hown, h]
  · intro h1 h2
    have hres : cancelAppointment s cid aid
        = ({ s with appointments := saveAppt s.appointments { a with status := ApptStatus.cancelled } },
           Response.ok "Appointment cancelled successfully") := by
      simp [cancelAppointment, hfind, hown, h1, h2]
    have hfind2 : findApptById (cancelAppointment s cid aid).1 aid
        = some { a with status := ApptStatus.cancelled } := by
      rw [hres]
      have hmem : ∃ b ∈ s.appointments, b.id = ({ a with status := ApptStatus.cancelled } : Appointment).id :=
        ⟨a, mem_of_findApptById hfind, rfl⟩
      have := find?_saveAppt hmem
      simpa [findApptById, id_of_findApptById hfind] using this
    refine ⟨by rw [hres], by rw [hres], by rw [hres], by rw [hres], ?_⟩
    have hcust : (({ a with status := ApptStatus.cancelled } : Appointment)).customer = cid := hown
    revert hfind2
    generalize (cancelAppointment s cid aid).1 = S2
    intro hfind2
    simp [cancelAppointment, hfind2, hcust, hown]

/-- Witness for C5: cancelling a pending appointment owned by customer 2
marks it cancelled, and cancelling again fails with 400. -/
theorem cancel_transition_witness :
    (findApptById
        (Store.mk [] [] [Appointment.mk 9 2 4 "2025-06-24" "10:00" [] none false
          ApptStatus.pending PayStatus.paid 0]) 9
      = some (Appointment.mk 9 2 4 "2025-06-24" "10:00" [] none false
          ApptStatus.pending PayStatus.paid 0)) ∧
    (cancelAppointment
        (Store.mk [] [] [Appointment.mk 9 2 4 "2025-06-24" "10:00" [] none false
          ApptStatus.pending PayStatus.paid 0]) 2 9).1.appointments
      = [Appointment.mk 9 2 4 "2025-06-24" "10:00" [] none false
          ApptStatus.cancelled PayStatus.paid 0] ∧
    (cancelAppointment
        (cancelAppointment
          (Store.mk [] [] [Appointment.mk 9 2 4 "2025-06-24" "10:00" [] none false
            ApptStatus.pending PayStatus.paid 0]) 2 9).1 2 9).2
      = Response.err 400 "Appointment is already cancelled." := by
  refine ⟨rfl, ?_, ?_⟩
  · have h := (cancel_transition
      (Store.mk [] [] [Appointment.mk 9 2 4 "2025-06-24" "10:00" [] none false
        ApptStatus.pending PayStatus.paid 0]) 2 9
      (Appointment.mk 9 2 4 "2025-06-24" "10:00" [] none false
        ApptStatus.pending PayStatus.paid 0) rfl rfl).2 (by decide) (by decide)
    simpa [saveAppt] using h.2.2.2.1
  · have h := (cancel_transition
      (Store.mk [] [] [Appointment.mk 9 2 4 "2025-06-24" "10:00" [] none false
        ApptStatus.pending PayStatus.paid 0]) 2 9
      (Appointment.mk 9 2 4 "2025-06-24" "10:00" [] none false
        ApptStatus.pending PayStatus.paid 0) rfl rfl).2 (by decide) (by decide)
    rw [h.2.2.2.2]

/-- C3: admin doctor-approval sets `isApproved = true` on both the user
and the profile when the target exists with role doctor and has a
profile; otherwise it fails with 404 and modifies nothing. -/
theorem approve_doctor_spec (s : Store) (uid : Nat) :
    (∀ u p, findUser s uid = some u → u.role = Role.doctor →
       findProfileByUser s uid = some p →
         (approveDoctor s uid).2 = Response.ok "Doctor approved successfully" ∧
         (approveDoctor s uid).1.users = saveUser s.users { u with isApproved := true } ∧
         (approveDoctor s uid).1.profiles
           = saveProfile s.profiles { p with isApproved := true } ∧
         (approveDoctor s uid).1.appointments = s.appointments) ∧
    ((findUser s uid = none ∨
      (∃ u, findUser s uid = some u ∧ u.role ≠ Role.doctor) ∨
      findProfileByUser s uid = none) →
       (approveDoctor s uid).1 = s ∧
       ∃ m, (approveDoctor s uid).2 = Response.err 404 m) := by
  constructor
  · intro u p hu hrole hp
    refine ⟨?_, ?_, ?_, ?_⟩ <;> simp [approveDoctor, hu, hrole, hp]
  · intro hbad
    rcases hbad with hnone | ⟨u, hu, hrole⟩ | hpnone
    · refine ⟨?_, "Doctor not found or not a doctor role", ?_⟩ <;>
        simp [approveDoctor, hnone]
    · refine ⟨?_, "Doctor not found or not a doctor role", ?_⟩ <;>
        simp [approveDoctor, hu, hrole]
    · cases hu : findUser s uid with
      | none =>
        refine ⟨?_, "Doctor not found or not a doctor role", ?_⟩ <;>
          simp [approveDoctor, hu]
      | some u =>
        by_cases hrole : u.role = Role.doctor
        · refine ⟨?_, "Doctor profile not found", ?_⟩ <;>
            simp [approveDoctor, hu, hrole, hpnone]
        · refine ⟨?_, "Doctor not found or not a doctor role", ?_⟩ <;>
            simp [approveDoctor, hu, hrole]

/-- Witness for C3: approving doctor 4 (role doctor, with a pending
profile) marks both the user and the profile approved. -/
theorem approve_doctor_spec_witness :
    (findUser (Store.mk
        [User.mk 4 "d" "d@chetan.doctor" "h" Role.doctor false]
        [DoctorProfile.mk 4 "Not specified" none none none false] []) 4
      = some (User.mk 4 "d" "d@chetan.doctor" "h" Role.doctor false)) ∧
    (approveDoctor (Store.mk
        [User.mk 4 "d" "d@chetan.doctor" "h" Role.doctor false]
        [DoctorProfile.mk 4 "Not specified" none none none false] []) 4).1.users
      = [User.mk 4 "d" "d@chetan.doctor" "h" Role.doctor true] ∧
    (approveDoctor (Store.mk
        [User.mk 4 "d" "d@chetan.doctor" "h" Role.doctor false]
        [DoctorProfile.mk 4 "Not specified" none none none false] []) 4).1.profiles
      = [DoctorProfile.mk 4 "Not specified" none none none true] := by
  refine ⟨rfl, ?_, ?_⟩
  all_goals
    have h := (approve_doctor_spec (Store.mk
        [User.mk 4 "d" "d@chetan.doctor" "h" Role.doctor false]
        [DoctorProfile.mk 4 "Not specified" none none none false] []) 4).1
      (User.mk 4 "d" "d@chetan.doctor" "h" Role.doctor false)
      (DoctorProfile.mk 4 "Not specified" none none none false)
      rfl rfl rfl
  · simpa [saveUser] using h.2.1
  · simpa [saveProfile] using h.2.2.1

/-- C4: booking fails with 400 and creates nothing when the target
profile of the target doctor is missing or unapproved; with an approved profile it
appends one appointment at (pending, pending) referencing the caller as
customer and the target as doctor. -/
theorem book_appointment_spec (s : Store) (cid did : Nat) (d t : String)
    (docs : List String) (notes : Option String) (em : Option Bool)
    (fid cat : Nat) :
    ((∀ p, findProfileByUser s did = some p → p.isApproved = false) →
       (bookAppointment s cid did d t docs notes em fid cat).1 = s ∧
       (bookAppointment s cid did d t docs notes em fid cat).2
         = Response.err 400 "Doctor not found or not yet approved.") ∧
    (∀ p, findProfileByUser s did = some p → p.isApproved = true →
       (bookAppointment s cid did d t docs notes em fid cat).2
         = Response.ok "Appointment requested successfully! Proceed to My Appointments to pay." ∧
       (bookAppointment s cid did d t docs notes em fid cat).1.users = s.users ∧
       (bookAppointment s cid did d t docs notes em fid cat).1.profiles = s.profiles ∧
       (bookAppointment s cid did d t docs notes em fid cat).1.appointments
         = s.appointments ++
             [{ id := fid, customer := cid, doctor := did, date := d, time := t,
                documents := docs, notes := notes, isEmergency := em.getD false,
                status := ApptStatus.pending, paymentStatus := PayStatus.pending,
                createdAt := cat }]) := by
  constructor
  · intro hbad
    cases hp : findProfileByUser s did with
    | none => constructor <;> simp [bookAppointment, hp]
    | some p =>
      have := hbad p hp
      constructor <;> simp [bookAppointment, hp, this]
  · intro p hp happ
    refine ⟨?_, ?_, ?_, ?_⟩ <;> simp [bookAppointment, hp, happ]

/-- Witness for C4: booking against unapproved doctor 4 fails; after
approval the same booking succeeds at (pending, pending). -/
theorem book_appointment_spec_witness :
    (∀ p, findProfileByUser (Store.mk []
        [DoctorProfile.mk 4 "ENT" none none none false] []) 4 = some p →
        p.isApproved = false) ∧
    (bookAppointment (Store.mk [] [DoctorProfile.mk 4 "ENT" none none none false] [])
        2 4 "2025-06-24" "10:00" [] none none 9 0).1
      = Store.mk [] [DoctorProfile.mk 4 "ENT" none none none false] [] ∧
    (bookAppointment (Store.mk [] [DoctorProfile.mk 4 "ENT" none none none true] [])
        2 4 "2025-06-24" "10:00" [] none none 9 0).1.appointments
      = [Appointment.mk 9 2 4 "2025-06-24" "10:00" [] none false
          ApptStatus.pending PayStatus.pending 0] := by
  refine ⟨?_, ?_, ?_⟩
  · intro p hp
    cases hp
    rfl
  · exact ((book_appointment_spec (Store.mk []
      [DoctorProfile.mk 4 "ENT" none none none false] [])
      2 4 "2025-06-24" "10:00" [] none none 9 0).1
      (fun p hp => by cases hp; rfl)).1
  · have h := (book_appointment_spec (Store.mk []
      [DoctorProfile.mk 4 "ENT" none none none true] [])
      2 4 "2025-06-24" "10:00" [] none none 9 0).2
      (DoctorProfile.mk 4 "ENT" none none none true) rfl rfl
    simpa using h.2.2.2

/-- C6: admin deletion of an existing user fails with 403 and changes
nothing when the target is an admin or the caller themself; otherwise
the user record is removed, deleting a doctor also removes their
profile and all appointments where they are the doctor, and deleting a
customer removes all appointments where they are the customer. -/
theorem delete_user_cascade (s : Store) (cid tid : Nat) (u : User)
    (hfind : findUser s tid = some u) :
    ((u.role = Role.admin ∨ u.id = cid) →
       (deleteUser s cid tid).1 = s ∧
       ∃ m, (deleteUser s cid tid).2 = Response.err 403 m) ∧
    (u.role ≠ Role.admin → u.id ≠ cid →
       (deleteUser s cid tid).2 = Response.ok "User and associated data removed" ∧
       (deleteUser s cid tid).1.users = s.users.filter (fun v => !(v.id == u.id)) ∧
       (u.role = Role.doctor →
          (deleteUser s cid tid).1.profiles
            = s.profiles.filter (fun p => !(p.user == u.id)) ∧
          (deleteUser s cid tid).1.appointments
            = s.appointments.filter (fun a => !(a.doctor == u.id))) ∧
       (u.role = Role.customer →
          (deleteUser s cid tid).1.profiles = s.profiles ∧
          (deleteUser s cid tid).1.appointments
            = s.appointments.filter (fun a => !(a.customer == u.id)))) := by
  constructor
  · intro hbad
    rcases hbad with hadm | hself
    · refine ⟨?_, "Cannot delete an admin user.", ?_⟩ <;>
        simp [deleteUser, hfind, hadm]
    · by_cases hadm : u.role = Role.admin
      · refine ⟨?_, "Cannot delete an admin user.", ?_⟩ <;>
          simp [deleteUser, hfind, hadm]
      · refine ⟨?_, "You cannot delete your own account.", ?_⟩ <;>
          simp [deleteUser, hfind, hadm, hself]
  · intro hadm hself
    refine ⟨?_, ?_, ?_, ?_⟩
    · simp [deleteUser, hfind, hadm, hself]
    · by_cases hdoc : u.role = Role.doctor
      · simp [deleteUser, hfind, hadm, hself, hdoc]
      · by_cases hcust : u.role = Role.customer
        · simp [deleteUser, hfind, hadm, hself, hdoc, hcust]
        · cases hurole : u.role <;> simp_all
    · intro hdoc
      constructor <;> simp [deleteUser, hfind, hadm, hself, hdoc]
    · intro hcust
      have hdoc : u.role ≠ Role.doctor := by simp [hcust]
      constructor <;> simp [deleteUser, hfind, hadm, hself, hdoc, hcust]

/-- Witness for C6: deleting doctor 4 removes their user record, their
profile and their appointment, and an attempt to delete admin 1 fails
with 403 and changes nothing. -/
theorem delete_user_cascade_witness :
    (findUser (Store.mk
        [User.mk 1 "a" "a@mail.com" "h" Role.admin true,
         User.mk 4 "d" "d@chetan.doctor" "h" Role.doctor true]
        [DoctorProfile.mk 4 "ENT" none none none true]
        [Appointment.mk 9 2 4 "2025-06-24" "10:00" [] none false
          ApptStatus.pending PayStatus.pending 0]) 4
      = some (User.mk 4 "d" "d@chetan.doctor" "h" Role.doctor true)) ∧
    (deleteUser (Store.mk
        [User.mk 1 "a" "a@mail.com" "h" Role.admin true,
         User.mk 4 "d" "d@chetan.doctor" "h" Role.doctor true]
        [DoctorProfile.mk 4 "ENT" none none none true]
        [Appointment.mk 9 2 4 "2025-06-24" "10:00" [] none false
          ApptStatus.pending PayStatus.pending 0]) 1 4).1.users
      = [User.mk 1 "a" "a@mail.com" "h" Role.admin true] ∧
    (deleteUser (Store.mk
        [User.mk 1 "a" "a@mail.com" "h" Role.admin true,
         User.mk 4 "d" "d@chetan.doctor" "h" Role.doctor true]
        [DoctorProfile.mk 4 "ENT" none none none true]
        [Appointment.mk 9 2 4 "2025-06-24" "10:00" [] none false
          ApptStatus.pending PayStatus.pending 0]) 1 4).1.profiles = [] ∧
    (deleteUser (Store.mk
        [User.mk 1 "a" "a@mail.com" "h" Role.admin true,
         User.mk 4 "d" "d@chetan.doctor" "h" Role.doctor true]
        [DoctorProfile.mk 4 "ENT" none none none true]
        [Appointment.mk 9 2 4 "2025-06-24" "10:00" [] none false
          ApptStatus.pending PayStatus.pending 0]) 1 4).1.appointments = [] ∧
    (deleteUser (Store.mk
        [User.mk 1 "a" "a@mail.com" "h" Role.admin true,
         User.mk 4 "d" "d@chetan.doctor" "h" Role.doctor true]
        [DoctorProfile.mk 4 "ENT" none none none true]
        [Appointment.mk 9 2 4 "2025-06-24" "10:00" [] none false
          ApptStatus.pending PayStatus.pending 0]) 2 1).1
      = Store.mk
          [User.mk 1 "a" "a@mail.com" "h" Role.admin true,
           User.mk 4 "d" "d@chetan.doctor" "h" Role.doctor true]
          [DoctorProfile.mk 4 "ENT" none none none true]
          [Appointment.mk 9 2 4 "2025-06-24" "10:00" [] none false
            ApptStatus.pending PayStatus.pending 0] := by
  have h := (delete_user_cascade (Store.mk
      [User.mk 1 "a" "a@mail.com" "h" Role.admin true,
       User.mk 4 "d" "d@chetan.doctor" "h" Role.doctor true]
      [DoctorProfile.mk 4 "ENT" none none none true]
      [Appointment.mk 9 2 4 "2025-06-24" "10:00" [] none false
        ApptStatus.pending PayStatus.pending 0]) 1 4
      (User.mk 4 "d" "d@chetan.doctor" "h" Role.doctor true) rfl).2
      (by decide) (by decide)
  refine ⟨rfl, ?_, ?_, ?_, ?_⟩
  · rw [h.2.1]
    rfl
  · rw [(h.2.2.1 rfl).1]
    rfl
  · rw [(h.2.2.1 rfl).2]
    rfl
  · exact ((delete_user_cascade (Store.mk
        [User.mk 1 "a" "a@mail.com" "h" Role.admin true,
         User.mk 4 "d" "d@chetan.doctor" "h" Role.doctor true]
        [DoctorProfile.mk 4 "ENT" none none none true]
        [Appointment.mk 9 2 4 "2025-06-24" "10:00" [] none false
          ApptStatus.pending PayStatus.pending 0]) 2 1
        (User.mk 1 "a" "a@mail.com" "h" Role.admin true) rfl).1
        (Or.inl rfl)).1

/-- C10: a status update by the owning doctor rewrites the appointment
so that status changes only when the request carries one, date and time
change only when the request field is truthy (present and non-empty),
and every other field — customer, doctor, documents, notes,
isEmergency, paymentStatus, createdAt — is unchanged; users and
profiles are untouched. -/
theorem statusUpdate_owner_frame (s : Store) (cid aid : Nat)
    (st : Option ApptStatus) (d t : Option String) (a : Appointment)
    (hfind : findApptById s aid = some a)
    (hown : a.doctor = cid) :
    (updateApptStatus s cid aid st d t).2 = Response.ok "Appointment updated successfully" ∧
    (updateApptStatus s cid aid st d t).1.users = s.users ∧
    (updateApptStatus s cid aid st d t).1.profiles = s.profiles ∧
    ∃ a2, (updateApptStatus s cid aid st d t).1.appointments = saveAppt s.appointments a2 ∧
      a2.id = a.id ∧ a2.customer = a.customer ∧ a2.doctor = a.doctor ∧
      a2.documents = a.documents ∧ a2.notes = a.notes ∧
      a2.isEmergency = a.isEmergency ∧ a2.paymentStatus = a.paymentStatus ∧
      a2.createdAt = a.createdAt ∧
      a2.status = st.getD a.status ∧
      a2.date = applyIfTruthy d a.date ∧
      a2.time = applyIfTruthy t a.time := by
  refine ⟨?_, ?_, ?_,
    ⟨{ a with status := st.getD a.status,
              date := applyIfTruthy d a.date,
              time := applyIfTruthy t a.time },
     ?_, rfl, rfl, rfl, rfl, rfl, rfl, rfl, rfl, rfl, rfl, rfl⟩⟩ <;>
    simp [updateApptStatus, hfind, hown]

/-- Witness for C10: a reschedule carrying only a date leaves status,
time and payment state unchanged. -/
theorem statusUpdate_owner_frame_witness :
    (findApptById
        (Store.mk [] [] [Appointment.mk 9 2 4 "2025-06-24" "10:00" [] none false
          ApptStatus.pending PayStatus.pending 0]) 9
      = some (Appointment.mk 9 2 4 "2025-06-24" "10:00" [] none false
          ApptStatus.pending PayStatus.pending 0)) ∧
    (updateApptStatus
        (Store.mk [] [] [Appointment.mk 9 2 4 "2025-06-24" "10:00" [] none false
          ApptStatus.pending PayStatus.pending 0]) 4 9
        none (some "2025-07-01") none).1.appointments
      = [Appointment.mk 9 2 4 "2025-07-01" "10:00" [] none false
          ApptStatus.pending PayStatus.pending 0] := by
  refine ⟨rfl, ?_⟩
  have h := (statusUpdate_owner_frame
    (Store.mk [] [] [Appointment.mk 9 2 4 "2025-06-24" "10:00" [] none false
      ApptStatus.pending PayStatus.pending 0]) 4 9
    none (some "2025-07-01") none
    (Appointment.mk 9 2 4 "2025-06-24" "10:00" [] none false
      ApptStatus.pending PayStatus.pending 0) rfl rfl).2.2.2
  obtain ⟨a2, happts, hid, hcust, hdoc, hdocs, hnotes, hem, hpay, hcrt, hst, hdate, htime⟩ := h
  rw [happts]
  have ha2 : a2 = Appointment.mk 9 2 4 "2025-07-01" "10:00" [] none false
      ApptStatus.pending PayStatus.pending 0 := by
    cases a2
    simp only [Appointment.mk.injEq]
    simp_all [applyIfTruthy]
    rfl
  rw [ha2]
  rfl

/-- Register never touches the appointment collection. -/
theorem register_appointments (s : Store) (un em pw : String)
    (hash : String → String) (fid : Nat) :
    (register s un em pw hash fid).1.appointments = s.appointments := by
  unfold register
  split
  · rfl
  · split <;> rfl

/-- Approve never touches the appointment collection. -/
theorem approveDoctor_appointments (s : Store) (uid : Nat) :
    (approveDoctor s uid).1.appointments = s.appointments := by
  unfold approveDoctor
  split
  · rfl
  · split
    · rfl
    · split <;> rfl

/-- The pay handler either leaves the appointment collection unchanged
or saves one appointment with `paymentStatus = paid`. -/
theorem payAppointment_appointments (s : Store) (cid aid : Nat) :
    (payAppointment s cid aid).1.appointments = s.appointments ∨
    ∃ b2, b2.paymentStatus = PayStatus.paid ∧
      (payAppointment s cid aid).1.appointments = saveAppt s.appointments b2 := by
  unfold payAppointment
  cases hfind : findApptById s aid with
  | none => left; rfl
  | some b =>
    dsimp only
    split
    · left; rfl
    · split
      · left; rfl
      · split
        · left; rfl
        · right
          simp only [paymentSuccessful, if_true]
          refine ⟨_, ?_, rfl⟩
          rfl

/-- The cancel handler either leaves the appointment collection
unchanged or saves a stored appointment with only its status changed. -/
theorem cancelAppointment_appointments (s : Store) (cid aid : Nat) :
    (cancelAppointment s cid aid).1.appointments = s.appointments ∨
    ∃ b ∈ s.appointments, ∃ b2, b2.paymentStatus = b.paymentStatus ∧
      (cancelAppointment s cid aid).1.appointments = saveAppt s.appointments b2 := by
  unfold cancelAppointment
  cases hfind : findApptById s aid with
  | none => left; rfl
  | some b =>
    dsimp only
    split
    · left; rfl
    · split
      · left; rfl
      · split
        · left; rfl
        · right
          refine ⟨b, mem_of_findApptById hfind, _, ?_, rfl⟩
          rfl

/-- The doctor status-update handler either leaves the appointment
collection unchanged or saves a stored appointment with an unchanged
`paymentStatus`. -/
theorem updateApptStatus_appointments (s : Store) (cid aid : Nat)
    (st : Option ApptStatus) (d t : Option String) :
    (updateApptStatus s cid aid st d t).1.appointments = s.appointments ∨
    ∃ b ∈ s.appointments, ∃ b2, b2.paymentStatus = b.paymentStatus ∧
      (updateApptStatus s cid aid st d t).1.appointments = saveAppt s.appointments b2 := by
  unfold updateApptStatus
  cases hfind : findApptById s aid with
  | none => left; rfl
  | some b =>
    dsimp only
    split
    · left; rfl
    · right
      refine ⟨b, mem_of_findApptById hfind, _, ?_, rfl⟩
      rfl

/-- The book handler either leaves the appointment collection unchanged
or appends one appointment with `paymentStatus = pending`. -/
theorem bookAppointment_appointments (s : Store) (cid did : Nat)
    (d t : String) (docs : List String) (notes : Option String)
    (em : Option Bool) (fid cat : Nat) :
    (bookAppointment s cid did d t docs notes em fid cat).1.appointments = s.appointments ∨
    ∃ b2, b2.paymentStatus = PayStatus.pending ∧
      (bookAppointment s cid did d t docs notes em fid cat).1.appointments
        = s.appointments ++ [b2] := by
  unfold bookAppointment
  cases hp : findProfileByUser s did with
  | none => left; rfl
  | some p =>
    dsimp only
    split
    · left; rfl
    · right
      refine ⟨_, ?_, rfl⟩
      rfl

/-- Every appointment surviving a user deletion was already stored. -/
theorem deleteUser_appointments_subset (s : Store) (cid tid : Nat) :
    ∀ a ∈ (deleteUser s cid tid).1.appointments, a ∈ s.appointments := by
  intro a ha
  unfold deleteUser at ha
  cases hfind : findUser s tid with
  | none =>
    rw [hfind] at ha
    exact ha
  | some u =>
    rw [hfind] at ha
    dsimp only at ha
    split at ha
    · exact ha
    · split at ha
      · exact ha
      · split at ha
        · exact List.mem_of_mem_filter ha
        · split at ha
          · exact List.mem_of_mem_filter ha
          · exact ha

/-- Every operation preserves the absence of `failed` payments: booking
creates `pending`, the `failed` write in the pay handler is unreachable
(`paymentSuccessful` is the constant `true`), and no other handler
writes `paymentStatus`. -/
theorem noFailed_applyOp (s : Store) (op : Op)
    (h : NoFailedPayment s) : NoFailedPayment (applyOp s op) := by
  cases op with
  | register un em pw fid =>
    intro a ha
    apply h
    simp only [applyOp] at ha
    rwa [register_appointments] at ha
  | book cid did d t docs notes em fid cat =>
    intro a ha
    simp only [applyOp] at ha
    rcases bookAppointment_appointments s cid did d t docs notes em fid cat with
      heq | ⟨b2, hb2, heq⟩
    · rw [heq] at ha
      exact h a ha
    · rw [heq] at ha
      rcases List.mem_append.mp ha with hmem | hnew
      · exact h a hmem
      · simp only [List.mem_singleton] at hnew
        rw [hnew, hb2]
        simp
  | pay cid aid =>
    intro a ha
    simp only [applyOp] at ha
    rcases payAppointment_appointments s cid aid with heq | ⟨b2, hb2, heq⟩
    · rw [heq] at ha
      exact h a ha
    · rw [heq] at ha
      rcases mem_saveAppt ha with hab | hmem
      · rw [hab, hb2]
        simp
      · exact h a hmem
  | cancel cid aid =>
    intro a ha
    simp only [applyOp] at ha
    rcases cancelAppointment_appointments s cid aid with heq | ⟨b, hb, b2, hb2, heq⟩
    · rw [heq] at ha
      exact h a ha
    · rw [heq] at ha
      rcases mem_saveAppt ha with hab | hmem
      · rw [hab, hb2]
        exact h b hb
      · exact h a hmem
  | statusUpdate cid aid st d t =>
    intro a ha
    simp only [applyOp] at ha
    rcases updateApptStatus_appointments s cid aid st d t with heq | ⟨b, hb, b2, hb2, heq⟩
    · rw [heq] at ha
      exact h a ha
    · rw [heq] at ha
      rcases mem_saveAppt ha with hab | hmem
      · rw [hab, hb2]
        exact h b hb
      · exact h a hmem
  | approve uid =>
    intro a ha
    apply h
    simp only [applyOp] at ha
    rwa [approveDoctor_appointments] at ha
  | delete cid tid =>
    intro a ha
    simp only [applyOp] at ha
    exact h a (deleteUser_appointments_subset s cid tid a ha)

/-- Running any operation sequence preserves the invariant. -/
theorem noFailed_runOps (ops : List Op) :
    ∀ s : Store, NoFailedPayment s → NoFailedPayment (runOps s ops) := by
  induction ops with
  | nil =>
    intro s h
    simpa [runOps] using h
  | cons op rest ih =>
    intro s h
    have hstep := ih (applyOp s op) (noFailed_applyOp s op h)
    simpa [runOps] using hstep

/-- C9: from a store with no appointments, no sequence of the public
operations ever produces an appointment with `paymentStatus = failed`. -/
theorem no_failed_payment_invariant (s : Store) (ops : List Op)
    (h : s.appointments = []) : NoFailedPayment (runOps s ops) := by
  apply noFailed_runOps
  intro a ha
  rw [h] at ha
  cases ha

/-- Witness for C9: a book-then-pay run from an empty appointment
collection ends with no failed payment. -/
theorem no_failed_payment_invariant_witness :
    (Store.mk [] [DoctorProfile.mk 4 "ENT" none none none true] []).appointments = [] ∧
    NoFailedPayment (runOps (Store.mk [] [DoctorProfile.mk 4 "ENT" none none none true] [])
      [Op.book 2 4 "2025-06-24" "10:00" [] none none 9 0, Op.pay 2 9]) :=
  ⟨rfl, no_failed_payment_invariant
    (Store.mk [] [DoctorProfile.mk 4 "ENT" none none none true] [])
    [Op.book 2 4 "2025-06-24" "10:00" [] none none 9 0, Op.pay 2 9] rfl⟩

end DocSpot
